import Mathlib

/-!
Shallow embedding of the video source management subsystem of the
servo_control repository (src/camera_manager.py and the MJPEG generator in
src/web_camera.py), together with theorems settling the spec claims.

Modelling conventions:
* Machine state of the CameraManager object is the structure CamState,
  mirroring the fields set in CameraManager.__init__ (src/camera_manager.py
  lines 46-67).  Time, printing and file I/O are ignored; the timestamp part
  of generated file names is passed as a string argument.
* External nondeterminism (whether a hardware call succeeds, which frame a
  read returns, whether an OpenCV call throws) is passed in as explicit
  outcome arguments, so every definition is an executable function.
* Exceptions that the Python code catches are modelled by the corresponding
  branch of the function; a call that would block forever on the
  non-reentrant threading.Lock is modelled by the result none.
* The per-pixel arithmetic of cv2.cvtColor for YUV420p to BGR is abstracted
  as a conversion argument conv on raw channel triples; the channel ORDER of
  its output (BGR) is tracked concretely by the fmt tag, which is what the
  colour-order claims are about.
-/

namespace ServoControl

/-- A raw interleaved pixel: three channel values in storage order. -/
abbrev Triple := Nat × Nat × Nat

/-- Pixel format tag of a frame (the true channel order of its raw data). -/
inductive PixFmt
  | yuv420
  | bgr
  | rgb
deriving DecidableEq, Repr

/-- A frame: format tag plus raw per-pixel channel triples. -/
structure Frame where
  fmt : PixFmt
  data : List Triple
deriving DecidableEq, Repr

/-- Semantic colour of one pixel (which value is red, green, blue). -/
structure Px where
  r : Nat
  g : Nat
  b : Nat
deriving DecidableEq, Repr

/-- Interpret a raw triple that is assumed to be in BGR storage order
(the interpretation cv2.imencode applies when encoding a JPEG). -/
def asBGR (t : Triple) : Px :=
  { r := t.2.2, g := t.2.1, b := t.1 }

/-- cv2.cvtColor with code COLOR_RGB2BGR reverses the channel order of each
raw triple (src/web_camera.py line 908 applies it to the buffered frame). -/
def swapRB (t : Triple) : Triple :=
  (t.2.2, t.2.1, t.1)

/-- Reversing the channel order turns true-BGR data into true-RGB data and
conversely; a YUV tag is unaffected (the operation is not meaningful there). -/
def flipFmt : PixFmt → PixFmt
  | PixFmt.bgr => PixFmt.rgb
  | PixFmt.rgb => PixFmt.bgr
  | PixFmt.yuv420 => PixFmt.yuv420

/-- Model of cv2.cvtColor(frame, cv2.COLOR_RGB2BGR): every raw triple has its
channel order reversed, so the true channel order of the data flips. -/
def cvtColorRGB2BGR (f : Frame) : Frame :=
  { fmt := flipFmt f.fmt, data := f.data.map swapRB }

/-- Model of cv2.cvtColor(frame, cv2.COLOR_YUV420p_to_BGR)
(src/camera_manager.py line 127): the numeric conversion of each pixel is
abstracted as conv; the output raw data is in BGR channel order. -/
def cvtColorYUV420ToBGR (conv : Triple → Triple) (f : Frame) : Frame :=
  { fmt := PixFmt.bgr, data := f.data.map conv }

/-- State of a CameraManager object (src/camera_manager.py lines 46-67).
threadAlive models self.thread.is_alive(); encoder is true when
self.encoder holds an encoder instance. -/
structure CamState where
  connected : Bool
  error : Option String
  frame : Option Frame
  camera : Option Unit
  camera_type : String
  is_recording : Bool
  recording_filename : Option String
  encoder : Bool
  running : Bool
  threadAlive : Bool
deriving DecidableEq, Repr

/-- The state right after CameraManager.__init__ (the camera thread has been
started but has not initialised a camera yet). -/
def initState : CamState :=
  { connected := false
    error := none
    frame := none
    camera := none
    camera_type := "Unknown"
    is_recording := false
    recording_filename := none
    encoder := false
    running := true
    threadAlive := true }

/-- The guard `not self.connected or self.camera is None or
self.camera_type != "Raspberry Pi Camera"` that opens capture_still,
start_recording and stop_recording, in positive form. -/
def piConnected (s : CamState) : Bool :=
  s.connected && s.camera.isSome && (s.camera_type == "Raspberry Pi Camera")

/-- Outcome of one backend read as seen by _capture_frame: a frame, a
read that yields no frame (webcam read() returning ret=False), or an
exception raised by the backend call. -/
inductive CapOutcome
  | ok (f : Frame)
  | noframe
  | exc (m : String)
deriving DecidableEq, Repr

/-- CameraManager._capture_frame (src/camera_manager.py lines 273-298):
returns none when not connected; on a backend exception the handler stores
the error, sets connected to false and returns none. -/
def capture_frame (s : CamState) (o : CapOutcome) : Option Frame × CamState :=
  if !s.connected || s.camera.isNone then
    (none, s)
  else
    match o with
    | CapOutcome.ok f => (some f, s)
    | CapOutcome.noframe => (none, s)
    | CapOutcome.exc m =>
        (none, { s with error := some ("Frame capture error: " ++ m), connected := false })

/-- Environment of one capture-loop iteration: the read outcome and whether
the YUV to BGR cvtColor call succeeds (line 127) or raises cv2.error. -/
structure IterEnv where
  read : CapOutcome
  convOk : Bool
deriving DecidableEq, Repr

/-- Result of one body execution of the while loop in _camera_thread:
either the loop continues or it breaks out with the given state. -/
inductive LoopRes
  | cont (s : CamState)
  | brk (s : CamState)
deriving DecidableEq, Repr

/-- One iteration of the capture loop body (src/camera_manager.py lines
110-155), excluding the `while self.running` test, which the driver
loopRunTr performs.  A failed cvtColor conversion hits `continue` (line
131); a read yielding no frame hits `break` (line 146); a frame is stored
in BGR (Pi lores converted, webcam frames used as read). -/
def loopIter (conv : Triple → Triple) (s : CamState) (e : IterEnv) : LoopRes :=
  if !s.connected || s.camera.isNone then
    LoopRes.brk { s with error := some "Camera disconnected unexpectedly." }
  else
    match capture_frame s e.read with
    | (some f, s1) =>
        if s1.camera_type == "Raspberry Pi Camera" then
          if e.convOk then
            LoopRes.cont { s1 with frame := some (cvtColorYUV420ToBGR conv f), error := none }
          else
            LoopRes.cont s1
        else if s1.camera_type == "Webcam" then
          LoopRes.cont { s1 with frame := some f, error := none }
        else
          LoopRes.cont s1
    | (none, s1) => LoopRes.brk { s1 with error := some "Failed to capture lores frame." }

/-- How the capture loop of _camera_thread came to an end. -/
inductive ExitKind
  | shutdown
  | broke
  | initFail
deriving DecidableEq, Repr

/-- Observable events of one camera-thread run.  connectAttempt is emitted
exactly where the source calls _init_pi_camera or _init_webcam; iterRead
for each executed loop iteration. -/
inductive TEv
  | connectAttempt
  | iterRead
  | loopBroke
  | loopShutdown
deriving DecidableEq, Repr

/-- The `while self.running` loop of _camera_thread driven by a finite list
of iteration environments; returns the state when the loop stops or the
environment list is exhausted, the exit kind (none when the loop is still
running after the supplied iterations), and the event trace. -/
def loopRunTr (conv : Triple → Triple) :
    CamState → List IterEnv → CamState × Option ExitKind × List TEv
  | s, [] =>
      if s.running then (s, none, [])
      else (s, some ExitKind.shutdown, [TEv.loopShutdown])
  | s, e :: rest =>
      if !s.running then (s, some ExitKind.shutdown, [TEv.loopShutdown])
      else
        match loopIter conv s e with
        | LoopRes.cont s1 =>
            let r := loopRunTr conv s1 rest
            (r.1, r.2.1, TEv.iterRead :: r.2.2)
        | LoopRes.brk s1 => (s1, some ExitKind.broke, [TEv.iterRead, TEv.loopBroke])

/-- The capture loop without its event trace. -/
def loopRun (conv : Triple → Triple) (s : CamState) (envs : List IterEnv) :
    CamState × Option ExitKind :=
  ((loopRunTr conv s envs).1, (loopRunTr conv s envs).2.1)

/-- CameraManager._cleanup_camera_object (src/camera_manager.py lines
418-444): close/release errors are caught, and the finally block sets
self.camera to None; when the camera is already None nothing happens. -/
def cleanup_camera_object (s : CamState) : CamState :=
  if s.camera.isSome then { s with camera := none } else s

/-- The teardown the camera thread performs when its loop finishes
(src/camera_manager.py lines 158-161): clean up the camera object, mark
disconnected; the thread itself is no longer alive afterwards. -/
def threadFinish (s : CamState) : CamState :=
  { cleanup_camera_object s with connected := false, threadAlive := false }

/-- Environment of one camera-thread run: whether the Pi-camera branch is
taken (IS_RASPBERRY_PI and picamera2_available, line 78) and whether the
chosen initialisation succeeds. -/
structure InitEnv where
  usePi : Bool
  initOk : Bool
deriving DecidableEq, Repr

/-- The one-time initialisation of _camera_thread (src/camera_manager.py
lines 74-99) via _init_pi_camera (163-213) or _init_webcam (215-271): on
success the camera object, type and connected flag are set; on failure the
camera object ends up None and connected stays false. -/
def initCamera (s : CamState) (ie : InitEnv) : CamState :=
  if ie.usePi then
    if ie.initOk then
      { s with connected := true, error := none, camera := some ()
               camera_type := "Raspberry Pi Camera" }
    else
      { s with connected := false, camera := none
               error := some "Pi camera initialization error" }
  else
    if ie.initOk then
      { s with connected := true, error := none, camera := some ()
               camera_type := "Webcam" }
    else
      { s with connected := false, camera := none
               error := some "Webcam initialization error" }

/-- A whole run of CameraManager._camera_thread (lines 69-161): initialise
once; on failure clean up and exit (lines 102-105); otherwise run the
capture loop and, when it exits, perform the teardown of lines 158-161. -/
def cameraThreadTr (conv : Triple → Triple) (ie : InitEnv) (envs : List IterEnv) :
    CamState × Option ExitKind × List TEv :=
  let s1 := initCamera initState ie
  if s1.connected then
    let r := loopRunTr conv s1 envs
    match r.2.1 with
    | some k => (threadFinish r.1, some k, TEv.connectAttempt :: r.2.2)
    | none => (r.1, none, TEv.connectAttempt :: r.2.2)
  else
    ({ cleanup_camera_object s1 with threadAlive := false },
     some ExitKind.initFail, [TEv.connectAttempt])

/-- CameraManager.get_frame (src/camera_manager.py lines 300-305), value
view: the returned copy is value-equal to the buffered frame.  (Object
identity of the copy is modelled separately by the Cell development.) -/
def get_frame (s : CamState) : Option Frame :=
  s.frame

/-- CameraManager.capture_still (src/camera_manager.py lines 307-331).
o is the outcome of the one-shot main-stream read; saveOk is false when
the cvtColor/imwrite part of the try block raises; ts stands for the
timestamp used in the generated file name. -/
def capture_still (s : CamState) (o : CapOutcome) (saveOk : Bool) (ts : String) :
    (Bool × String) × CamState :=
  if !piConnected s then
    ((false, "Pi Camera not connected or available for full-res capture."), s)
  else
    match capture_frame s o with
    | (some _, s1) =>
        if saveOk then
          ((true, "captures/capture_" ++ ts ++ ".jpg"), s1)
        else
          ((false, "Failed to save full-res image."), s1)
    | (none, s1) => ((false, "Failed to capture main stream frame."), s1)

/-- CameraManager.start_recording (src/camera_manager.py lines 333-366).
lockFree is true when the caller does not already hold recording_lock
(threading.Lock is not reentrant, so acquiring it while held blocks
forever: modelled by none).  encOk is whether starting the encoder
succeeds; ts the timestamp in the file name.  On encoder failure the
exception text is abstracted to a fixed message. -/
def start_recording (s : CamState) (lockFree : Bool) (encOk : Bool) (ts : String) :
    Option ((Bool × String) × CamState) :=
  if !piConnected s then
    some ((false, "Pi Camera not connected or available for recording."), s)
  else if !lockFree then
    none
  else if s.is_recording then
    some ((false, "Already recording."), s)
  else
    if encOk then
      some ((true, "captures/video_" ++ ts ++ ".h264"),
        { s with is_recording := true
                 recording_filename := some ("captures/video_" ++ ts ++ ".h264")
                 encoder := true })
    else
      some ((false, "Failed to start H.264 recording."),
        { s with recording_filename := none, encoder := false })

/-- CameraManager.stop_recording (src/camera_manager.py lines 368-393).
stopOk is whether camera.stop_recording() succeeds; on its failure the
session fields are cleared anyway and a fixed error message returned.
The returned file path is the stored recording_filename (empty string in
place of the Python None). -/
def stop_recording (s : CamState) (lockFree : Bool) (stopOk : Bool) :
    Option ((Bool × String) × CamState) :=
  if !piConnected s then
    some ((false, "Pi Camera not available to stop recording."), s)
  else if !lockFree then
    none
  else if !s.is_recording then
    some ((false, "Not currently recording."), s)
  else
    if stopOk then
      some ((true, s.recording_filename.getD ""),
        { s with is_recording := false, recording_filename := none, encoder := false })
    else
      some ((false, "Error stopping recording."),
        { s with is_recording := false, recording_filename := none, encoder := false })

/-- CameraManager.toggle_recording (src/camera_manager.py lines 395-400):
it acquires recording_lock itself and then calls stop_recording or
start_recording, which try to acquire the same non-reentrant lock again,
hence the inner calls run with lockFree = false. -/
def toggle_recording (s : CamState) (lockFree : Bool) (encOk stopOk : Bool) (ts : String) :
    Option ((Bool × String) × CamState) :=
  if !lockFree then
    none
  else if s.is_recording then
    stop_recording s false stopOk
  else
    start_recording s false encOk ts

/-- CameraManager.cleanup (src/camera_manager.py lines 446-461): clear the
running flag, stop an active recording, join the camera thread (whose exit
performs threadFinish), then clean up the camera object.  stopOk feeds the
inner stop_recording call; cleanup holds no lock, so that call runs with
lockFree = true and always returns. -/
def cleanup (s : CamState) (stopOk : Bool) : CamState :=
  let s1 : CamState := { s with running := false }
  let s2 : CamState :=
    if s1.is_recording then
      match stop_recording s1 true stopOk with
      | some r => r.2
      | none => s1
    else s1
  let s3 : CamState := if s2.threadAlive then threadFinish s2 else s2
  cleanup_camera_object s3

/-- One pass of the body of WebCameraServer._generate_frames
(src/web_camera.py lines 895-931): read the latest frame from the manager;
for the Pi camera apply cv2.COLOR_RGB2BGR before JPEG encoding (on a
cvtColor error the original frame is streamed); webcam frames are used as
stored.  Returns the frame handed to cv2.imencode, or none when the buffer
is empty. -/
def generate_frames_step (s : CamState) (convOk : Bool) : Option Frame :=
  match get_frame s with
  | none => none
  | some f =>
      if s.camera_type == "Raspberry Pi Camera" then
        if convOk then some (cvtColorRGB2BGR f) else some f
      else
        some f

/-- Raw pixel payload of one stored frame object, for the object-identity
model of the frame buffer. -/
abbrev FrameData := List Triple

/-- Object-identity model of the frame buffer (self.frame together with
frame_lock): heap is the store of frame objects indexed by identity, size
the number of allocated objects, ref the identity of the buffered frame.
It refines the value view get_frame for the copy-on-read claim. -/
structure Cell where
  size : Nat
  heap : Nat → FrameData
  ref : Option Nat

/-- The buffer before the camera thread has ever published a frame. -/
def initCell : Cell :=
  { size := 0, heap := fun _ => [], ref := none }

/-- Publication of a frame (src/camera_manager.py lines 139-140): the loop
stores the object produced by this iteration (a fresh object), replacing
the reference. -/
def publishC (c : Cell) (d : FrameData) : Cell :=
  { size := c.size + 1
    heap := fun i => if i = c.size then d else c.heap i
    ref := some c.size }

/-- get_frame under the identity model (src/camera_manager.py lines
300-305): when a frame is buffered, self.frame.copy() allocates a NEW
object with the same data and returns its identity; the buffer keeps
referring to the old object. -/
def getFrameC (c : Cell) : Option Nat × Cell :=
  match c.ref with
  | none => (none, c)
  | some r =>
      (some c.size,
       { size := c.size + 1
         heap := fun i => if i = c.size then c.heap r else c.heap i
         ref := c.ref })

/-- Read the pixel data of the object with identity i. -/
def readC (c : Cell) (i : Nat) : FrameData :=
  c.heap i

/-- In-place mutation of the object with identity i (what a caller could do
to the array returned by get_frame). -/
def mutateC (c : Cell) (i : Nat) (d : FrameData) : Cell :=
  { c with heap := fun j => if j = i then d else c.heap j }

/-- The identity conversion on raw triples, used to instantiate the
abstracted YUV-to-BGR pixel arithmetic in concrete runs. -/
def idConv : Triple → Triple := fun t => t

/-- A concrete YUV lores frame for concrete runs. -/
def yuvFrame : Frame :=
  { fmt := PixFmt.yuv420, data := [(10, 20, 30)] }

/-- A concrete BGR frame for concrete runs. -/
def bgrFrame : Frame :=
  { fmt := PixFmt.bgr, data := [(1, 2, 3)] }

/-- A loop-iteration environment whose read succeeds. -/
def envOk : IterEnv := { read := CapOutcome.ok yuvFrame, convOk := true }

/-- A loop-iteration environment whose read yields no frame. -/
def envNoFrame : IterEnv := { read := CapOutcome.noframe, convOk := true }

/-- The manager state after a successful Pi camera initialisation. -/
def piState : CamState :=
  initCamera initState { usePi := true, initOk := true }

/-- The Pi state after start_recording succeeded with timestamp T. -/
def piRecState : CamState :=
  { piState with is_recording := true
                 recording_filename := some "captures/video_T.h264"
                 encoder := true }

/-- The recording Pi state after a one-shot main-stream read raised inside
capture_still: connected dropped, session fields untouched. -/
def piRecDiscState : CamState :=
  { piRecState with connected := false
                    error := some "Frame capture error: boom" }

/-- The manager state after a successful webcam initialisation and one
successful loop iteration storing a BGR frame. -/
def webcamStreamState : CamState :=
  { initState with connected := true, camera := some ()
                   camera_type := "Webcam", frame := some bgrFrame, error := none }

/-- The Pi state with a BGR frame sitting in the frame buffer. -/
def piFrameState : CamState :=
  { piState with frame := some bgrFrame }

/-- The frame buffer of the state a loop body execution continued with, or
none when the body broke out of the loop. -/
def contStateFrame : LoopRes → Option Frame
  | LoopRes.cont s => s.frame
  | LoopRes.brk _ => none

/-- Helper: a state with piConnected decomposes into its three conditions. -/
theorem piConnected_fields (s : CamState) (h : piConnected s = true) :
    s.connected = true ∧ s.camera = some () ∧ s.camera_type = "Raspberry Pi Camera" := by
  simp only [piConnected, Bool.and_eq_true, beq_iff_eq] at h
  obtain ⟨⟨h1, h2⟩, h3⟩ := h
  obtain ⟨u, hu⟩ := Option.isSome_iff_exists.mp h2
  exact ⟨h1, by cases u; exact hu, h3⟩

/-- Helper: the loop body emits no connection attempt (the source loop
contains no call to an init function). -/
theorem loopRunTr_no_connect (conv : Triple → Triple) :
    ∀ (envs : List IterEnv) (s : CamState),
      ((loopRunTr conv s envs).2.2).count TEv.connectAttempt = 0 := by
  intro envs
  induction envs with
  | nil =>
      intro s
      simp only [loopRunTr]
      split <;> simp [List.count_cons, List.count_nil]
  | cons e rest ih =>
      intro s
      simp only [loopRunTr]
      split
      · simp [List.count_cons, List.count_nil]
      · cases h : loopIter conv s e with
        | cont s1 => simp [h, List.count_cons, ih]
        | brk s1 => simp [h, List.count_cons, List.count_nil]

/-- Claim C1, counterexample: a concrete run in which the Pi camera
initialises, one frame is read, then a single read fails: the capture loop
terminates with a break even though running is still true (no shutdown was
requested), refuting that the loop terminates only on an explicit shutdown
request and that the next iteration attempts a reconnection. -/
theorem loop_exits_on_read_failure_cex :
    (loopRun idConv piState [envOk, envNoFrame, envOk]).2 = some ExitKind.broke ∧
    (loopRun idConv piState [envOk, envNoFrame, envOk]).1.running = true ∧
    ¬ (loopRun idConv piState [envOk, envNoFrame, envOk]).2 = some ExitKind.shutdown := by
  decide

/-- Claim C1, amended: when a single frame read fails while streaming, the
loop body breaks out of the loop; the thread teardown then closes the
camera handle and marks the manager disconnected, and the loop run ends
with a break exit (not a shutdown exit): the thread exits instead of
reconnecting, so the loop can terminate because a read failed. -/
theorem read_failure_breaks_loop (conv : Triple → Triple) (s : CamState) (e : IterEnv)
    (hc : s.connected = true) (hcam : s.camera.isSome = true) (hrun : s.running = true)
    (hfail : e.read = CapOutcome.noframe ∨ ∃ m, e.read = CapOutcome.exc m) :
    ∃ s2, loopIter conv s e = LoopRes.brk s2 ∧
      (threadFinish s2).camera = none ∧
      (threadFinish s2).connected = false ∧
      ∀ rest, (loopRun conv s (e :: rest)).2 = some ExitKind.broke := by
  obtain ⟨u, hu⟩ := Option.isSome_iff_exists.mp hcam
  have hguard : (!s.connected || s.camera.isNone) = false := by
    simp [hc, hu]
  rcases hfail with hf | ⟨m, hf⟩
  · refine ⟨{ s with error := some "Failed to capture lores frame." }, ?_, ?_, ?_, ?_⟩
    · simp [loopIter, capture_frame, hguard, hf]
    · simp [threadFinish, cleanup_camera_object, hu]
    · simp [threadFinish]
    · intro rest
      simp [loopRun, loopRunTr, hrun, loopIter, capture_frame, hguard, hf]
  · refine ⟨{ s with connected := false, error := some "Failed to capture lores frame." },
      ?_, ?_, ?_, ?_⟩
    · simp [loopIter, capture_frame, hguard, hf]
    · simp [threadFinish, cleanup_camera_object, hu]
    · simp [threadFinish]
    · intro rest
      simp [loopRun, loopRunTr, hrun, loopIter, capture_frame, hguard, hf]

/-- Claim C1, witness for the amended theorem at a concrete streaming state
and a failing read. -/
theorem read_failure_breaks_loop_witness :
    (loopRun idConv piState (envNoFrame :: [])).2 = some ExitKind.broke := by
  obtain ⟨s2, h1, h2, h3, h4⟩ :=
    read_failure_breaks_loop idConv piState envNoFrame (by decide) (by decide) (by decide)
      (Or.inl rfl)
  exact h4 []

/-- Claim C4, counterexample: in a concrete run whose single connection
attempt fails, no retry ever happens (the run contains exactly one
connection attempt, not the repeated backed-off attempts the claim
describes), and the thread is dead afterwards. -/
theorem no_retry_after_failure_cex :
    ((cameraThreadTr idConv { usePi := true, initOk := false }
        (List.replicate 5 envOk)).2.2).count TEv.connectAttempt = 1 ∧
    ¬ 2 ≤ ((cameraThreadTr idConv { usePi := true, initOk := false }
        (List.replicate 5 envOk)).2.2).count TEv.connectAttempt ∧
    (cameraThreadTr idConv { usePi := true, initOk := false }
        (List.replicate 5 envOk)).1.threadAlive = false ∧
    (cameraThreadTr idConv { usePi := true, initOk := false }
        (List.replicate 5 envOk)).2.1 = some ExitKind.initFail := by
  decide

/-- Claim C4, amended: every camera thread run performs exactly one
connection attempt; on failure the thread exits without retrying, so there
is no sequence of consecutive retries and no backoff delay at all. -/
theorem connect_attempts_eq_one (conv : Triple → Triple) (ie : InitEnv)
    (envs : List IterEnv) :
    ((cameraThreadTr conv ie envs).2.2).count TEv.connectAttempt = 1 := by
  simp only [cameraThreadTr]
  split
  · cases h : (loopRunTr conv (initCamera initState ie) envs).2.1 with
    | none =>
        simp [h, List.count_cons, loopRunTr_no_connect]
    | some k =>
        simp [h, List.count_cons, loopRunTr_no_connect]
  · simp [List.count_cons, List.count_nil]

/-- Claim C2, counterexample: a reachable webcam state holds a frame in the
frame buffer, yet capture_still does not return it: it fails with the
Pi-camera-not-available message and leaves the state unchanged, refuting
that capture_still by default returns the buffered frame. -/
theorem capture_still_ignores_buffer_cex :
    loopIter idConv (initCamera initState { usePi := false, initOk := true })
        { read := CapOutcome.ok bgrFrame, convOk := true } =
      LoopRes.cont webcamStreamState ∧
    webcamStreamState.frame = some bgrFrame ∧
    webcamStreamState.connected = true ∧
    capture_still webcamStreamState (CapOutcome.ok bgrFrame) true "T" =
      ((false, "Pi Camera not connected or available for full-res capture."), webcamStreamState) := by
  decide

/-- Claim C2, amended: capture_still never consults the frame buffer (its
result is independent of the buffered frame); without a connected Pi
camera it returns a not-available failure leaving the state unchanged,
even when the buffer holds a frame; with a connected Pi camera it issues a
one-shot main-stream read, returning a failed-capture message when that
read yields no frame and a saved-file path on success. -/
theorem capture_still_behavior (s : CamState) (o : CapOutcome) (saveOk : Bool) (ts : String) :
    (piConnected s = false →
      capture_still s o saveOk ts =
        ((false, "Pi Camera not connected or available for full-res capture."), s)) ∧
    (∀ g, (capture_still { s with frame := g } o saveOk ts).1 =
      (capture_still s o saveOk ts).1) ∧
    (piConnected s = true → o = CapOutcome.noframe →
      capture_still s o saveOk ts =
        ((false, "Failed to capture main stream frame."), s)) ∧
    (piConnected s = true → ∀ f, o = CapOutcome.ok f →
      capture_still s o saveOk ts =
        ((saveOk, if saveOk then "captures/capture_" ++ ts ++ ".jpg"
                  else "Failed to save full-res image."), s)) := by
  refine ⟨?_, ?_, ?_, ?_⟩
  · intro hpi
    simp [capture_still, hpi]
  · intro g
    have hpe : piConnected { s with frame := g } = piConnected s := rfl
    cases hpi : piConnected s with
    | false => simp [capture_still, hpe, hpi]
    | true =>
        obtain ⟨hc, hcam, hty⟩ := piConnected_fields s hpi
        cases o <;> cases saveOk <;>
          simp [capture_still, piConnected, capture_frame, hc, hcam, hty]
  · intro hpi ho
    obtain ⟨hc, hcam, hty⟩ := piConnected_fields s hpi
    simp [capture_still, hpi, ho, capture_frame, hc, hcam]
  · intro hpi f ho
    obtain ⟨hc, hcam, hty⟩ := piConnected_fields s hpi
    cases saveOk <;> simp [capture_still, hpi, ho, capture_frame, hc, hcam]

/-- Claim C2, witness for the amended theorem: at the concrete webcam state
with a buffered frame, capture_still returns the not-available failure. -/
theorem capture_still_behavior_witness :
    capture_still webcamStreamState (CapOutcome.ok bgrFrame) true "T" =
      ((false, "Pi Camera not connected or available for full-res capture."),
       webcamStreamState) :=
  (capture_still_behavior webcamStreamState (CapOutcome.ok bgrFrame) true "T").1 (by decide)

/-- Claim C3: toggle_recording acquires the non-reentrant recording_lock and
then calls start_recording or stop_recording, which try to acquire the
same lock again, so with a Pi camera connected toggle_recording blocks
forever (modelled by none) both when idle and when recording, although the
direct start_recording call from an unlocked context returns; the claim
that every toggle_recording call returns a result synchronously fails. -/
theorem toggle_recording_deadlocks :
    piConnected piState = true ∧
    piState.is_recording = false ∧
    toggle_recording piState true true true "T" = none ∧
    start_recording piState true true "T" =
      some ((true, "captures/video_T.h264"), piRecState) ∧
    piRecState.is_recording = true ∧
    toggle_recording piRecState true true true "T2" = none ∧
    start_recording piState false true "T" = none ∧
    stop_recording piRecState false true = none := by
  decide

/-- Claim C5, counterexample: starting from the recording Pi state, a failed
one-shot read inside capture_still drops the connected flag while the
session stays active; in that reachable active-session state a second
start_recording returns the not-available message instead of the
already-recording result the claim promises (the session is still left
undisturbed). -/
theorem start_recording_disconnected_session_cex :
    capture_still piRecState (CapOutcome.exc "boom") true "T2" =
      ((false, "Failed to capture main stream frame."), piRecDiscState) ∧
    piRecDiscState.is_recording = true ∧
    start_recording piRecDiscState true true "T3" =
      some ((false, "Pi Camera not connected or available for recording."), piRecDiscState) ∧
    ¬ start_recording piRecDiscState true true "T3" =
      some ((false, "Already recording."), piRecDiscState) := by
  decide

/-- Claim C5, amended: while a recording session is active, start_recording
always returns a failure and leaves the state (and hence the session
fields) unchanged; the message is the already-recording result when the
Pi camera is still connected and the not-available message otherwise. -/
theorem start_recording_while_active (s : CamState) (encOk : Bool) (ts : String)
    (h : s.is_recording = true) :
    start_recording s true encOk ts =
      some ((false,
        if piConnected s then "Already recording."
        else "Pi Camera not connected or available for recording."), s) := by
  cases hpi : piConnected s <;> simp [start_recording, hpi, h]

/-- Claim C5, witness for the amended theorem at the connected recording
state. -/
theorem start_recording_while_active_witness :
    start_recording piRecState true true "W" =
      some ((false,
        if piConnected piRecState then "Already recording."
        else "Pi Camera not connected or available for recording."), piRecState) :=
  start_recording_while_active piRecState true "W" (by decide)

/-- Claim C6, counterexample: in the initial never-connected state no
session is active, yet stop_recording returns the Pi-camera-not-available
message, not the not-currently-recording condition the claim promises
(the connected check precedes the is_recording check). -/
theorem stop_recording_no_pi_cex :
    initState.is_recording = false ∧
    stop_recording initState true true =
      some ((false, "Pi Camera not available to stop recording."), initState) ∧
    ¬ stop_recording initState true true =
      some ((false, "Not currently recording."), initState) := by
  decide

/-- Claim C6, amended: when no session is active, stop_recording always
fails without changing the state, hence repeated calls have no further
effect; it reports the not-currently-recording condition only when a Pi
camera is connected, and the not-available message otherwise. -/
theorem stop_recording_idle (s : CamState) (stopOk : Bool)
    (h : s.is_recording = false) :
    stop_recording s true stopOk =
      some ((false,
        if piConnected s then "Not currently recording."
        else "Pi Camera not available to stop recording."), s) := by
  cases hpi : piConnected s <;> simp [stop_recording, hpi, h]

/-- Claim C6, witness for the amended theorem at the connected idle state. -/
theorem stop_recording_idle_witness :
    stop_recording piState true true =
      some ((false,
        if piConnected piState then "Not currently recording."
        else "Pi Camera not available to stop recording."), piState) :=
  stop_recording_idle piState true (by decide)

/-- Claim C7: the frame buffer returns none before any publication, reading
or mutating never changes the buffered reference, the copy returned after
a publication carries exactly the published data, and the returned copy is
a distinct object, so mutating it never changes the buffer contents. -/
theorem get_frame_none_then_copy (c : Cell) (d : FrameData) (r : Nat)
    (h : c.ref = some r) (hr : r < c.size) :
    (getFrameC initCell).1 = none ∧
    (getFrameC c).2.ref = c.ref ∧
    (getFrameC (publishC c d)).1 = some (c.size + 1) ∧
    readC (getFrameC (publishC c d)).2 (c.size + 1) = d ∧
    (getFrameC c).1 = some c.size ∧
    c.size ≠ r ∧
    readC (getFrameC c).2 c.size = readC c r ∧
    ∀ d2, readC (mutateC (getFrameC c).2 c.size d2) r = readC c r := by
  refine ⟨rfl, ?_, ?_, ?_, ?_, ?_, ?_, ?_⟩
  · simp [getFrameC, h]
  · simp [getFrameC, publishC]
  · simp [getFrameC, publishC, readC]
  · simp [getFrameC, h]
  · omega
  · simp [getFrameC, h, readC]
  · intro d2
    simp [getFrameC, h, readC, mutateC, hr.ne]

/-- Claim C7, witness: mutating the copy returned by get_frame leaves the
buffered frame object unchanged, at a concrete one-publication buffer. -/
theorem get_frame_none_then_copy_witness :
    readC (mutateC (getFrameC (publishC initCell [(1, 2, 3)])).2
        (publishC initCell [(1, 2, 3)]).size [(9, 9, 9)]) 0 =
      readC (publishC initCell [(1, 2, 3)]) 0 :=
  (get_frame_none_then_copy (publishC initCell [(1, 2, 3)]) [(4, 5, 6)] 0 rfl
      (by decide)).2.2.2.2.2.2.2 [(9, 9, 9)]

/-- Helper: the camera-object cleanup always leaves no camera object. -/
theorem cco_camera (t : CamState) : (cleanup_camera_object t).camera = none := by
  cases hc : t.camera <;> simp [cleanup_camera_object, hc]

/-- Helper: the camera-object cleanup on a state with no camera object is the
identity. -/
theorem cco_of_none (t : CamState) (h : t.camera = none) :
    cleanup_camera_object t = t := by
  simp [cleanup_camera_object, h]

/-- Helper: the camera-object cleanup only touches the camera field. -/
theorem cco_running (t : CamState) :
    (cleanup_camera_object t).running = t.running := by
  cases hc : t.camera <;> simp [cleanup_camera_object, hc]

/-- Helper: the camera-object cleanup preserves the thread-alive flag. -/
theorem cco_threadAlive (t : CamState) :
    (cleanup_camera_object t).threadAlive = t.threadAlive := by
  cases hc : t.camera <;> simp [cleanup_camera_object, hc]

/-- Helper: the thread teardown preserves the running flag. -/
theorem tf_running (t : CamState) : (threadFinish t).running = t.running := by
  cases hc : t.camera <;> simp [threadFinish, cleanup_camera_object, hc]

/-- Helper: after the thread teardown the thread is not alive. -/
theorem tf_threadAlive (t : CamState) : (threadFinish t).threadAlive = false := by
  cases hc : t.camera <;> simp [threadFinish, cleanup_camera_object, hc]

/-- Helper: stop_recording called with the lock free always returns, and the
returned state keeps the running flag, thread-alive flag and camera object
of the input state. -/
theorem stop_recording_some_fields (s : CamState) (o : Bool) :
    ∃ p, stop_recording s true o = some p ∧ p.2.running = s.running ∧
      p.2.threadAlive = s.threadAlive ∧ p.2.camera = s.camera := by
  cases hpi : piConnected s with
  | false =>
      exact ⟨((false, "Pi Camera not available to stop recording."), s),
        by simp [stop_recording, hpi], rfl, rfl, rfl⟩
  | true =>
      cases hrec : s.is_recording with
      | false =>
          exact ⟨((false, "Not currently recording."), s),
            by simp [stop_recording, hpi, hrec], rfl, rfl, rfl⟩
      | true =>
          cases o with
          | true =>
              exact ⟨((true, s.recording_filename.getD ""),
                  { s with is_recording := false, recording_filename := none,
                           encoder := false }),
                by simp [stop_recording, hpi, hrec], rfl, rfl, rfl⟩
          | false =>
              exact ⟨((false, "Error stopping recording."),
                  { s with is_recording := false, recording_filename := none,
                           encoder := false }),
                by simp [stop_recording, hpi, hrec], rfl, rfl, rfl⟩

/-- Helper: after cleanup the running flag is down, the thread is not alive
and no camera object is held, whatever state cleanup started from. -/
theorem cleanup_closes (s : CamState) (a : Bool) :
    (cleanup s a).running = false ∧ (cleanup s a).threadAlive = false ∧
    (cleanup s a).camera = none := by
  obtain ⟨p, hp, h1, h2, h3⟩ := stop_recording_some_fields { s with running := false } a
  have h1f : p.2.running = false := h1
  have h2f : p.2.threadAlive = s.threadAlive := h2
  simp only [cleanup, hp]
  by_cases hrec : s.is_recording = true
  · by_cases hta : p.2.threadAlive = true
    · simp [hrec, hta, cco_running, cco_threadAlive, cco_camera, tf_running,
        tf_threadAlive, h1f]
    · have hta2 : p.2.threadAlive = false := by simpa using hta
      simp [hrec, hta2, cco_running, cco_threadAlive, cco_camera, h1f]
  · have hrec2 : s.is_recording = false := by simpa using hrec
    by_cases hta : s.threadAlive = true
    · simp [hrec2, hta, cco_running, cco_threadAlive, cco_camera, tf_running,
        tf_threadAlive]
    · have hta2 : s.threadAlive = false := by simpa using hta
      simp [hrec2, hta2, cco_running, cco_threadAlive, cco_camera]

/-- Helper: overwriting the running flag with its current value false is the
identity on states. -/
theorem update_running_false (t : CamState) (h : t.running = false) :
    ({ t with running := false } : CamState) = t := by
  cases t
  simp_all

/-- Claim C8: cleanup and the camera-object cleanup are idempotent: a second
call returns exactly the state the first call produced, in every state
(including never-connected and already-cleaned-up ones); both are total
functions, so no error can be raised. -/
theorem cleanup_idempotent (s : CamState) (a b : Bool) :
    cleanup (cleanup s a) b = cleanup s a ∧
    cleanup_camera_object (cleanup_camera_object s) = cleanup_camera_object s := by
  constructor
  · obtain ⟨h1, h2, h3⟩ := cleanup_closes s a
    set t := cleanup s a with ht
    have hupd : ({ t with running := false } : CamState) = t := update_running_false t h1
    have hpi : piConnected t = false := by simp [piConnected, h3]
    have hstop : stop_recording { t with running := false } true b =
        some ((false, "Pi Camera not available to stop recording."),
          { t with running := false }) := by
      have hpi2 : piConnected { t with running := false } = false := hpi
      simp [stop_recording, hpi2]
    simp only [cleanup, hstop]
    rw [hupd]
    simp [h2, cco_of_none t h3]
  · exact cco_of_none _ (cco_camera s)

/-- Claim C9: a backend exception during the one-shot main-stream read
inside capture_still drops the connected flag (and only that: buffer and
recording fields are untouched), capture_still itself returns the failure
result, and the capture loop consequently breaks on its very next
iteration, ending live streaming. -/
theorem capture_still_read_exception_effect (s : CamState) (m ts : String)
    (saveOk : Bool) (hpi : piConnected s = true) (hrun : s.running = true) :
    (capture_still s (CapOutcome.exc m) saveOk ts).1 =
      (false, "Failed to capture main stream frame.") ∧
    (capture_still s (CapOutcome.exc m) saveOk ts).2.connected = false ∧
    (capture_still s (CapOutcome.exc m) saveOk ts).2.is_recording = s.is_recording ∧
    (capture_still s (CapOutcome.exc m) saveOk ts).2.recording_filename =
      s.recording_filename ∧
    (capture_still s (CapOutcome.exc m) saveOk ts).2.encoder = s.encoder ∧
    (capture_still s (CapOutcome.exc m) saveOk ts).2.frame = s.frame ∧
    ∀ (conv : Triple → Triple) (e : IterEnv) (rest : List IterEnv),
      (loopRun conv (capture_still s (CapOutcome.exc m) saveOk ts).2 (e :: rest)).2 =
        some ExitKind.broke := by
  obtain ⟨hc, hcam, hty⟩ := piConnected_fields s hpi
  have hred : capture_still s (CapOutcome.exc m) saveOk ts =
      ((false, "Failed to capture main stream frame."),
       { s with error := some ("Frame capture error: " ++ m), connected := false }) := by
    simp [capture_still, hpi, capture_frame, hc, hcam]
  rw [hred]
  refine ⟨rfl, rfl, rfl, rfl, rfl, rfl, ?_⟩
  intro conv e rest
  simp [loopRun, loopRunTr, hrun, loopIter]

/-- Claim C9, witness at the concrete connected Pi state. -/
theorem capture_still_read_exception_effect_witness :
    (capture_still piState (CapOutcome.exc "boom") true "T").2.connected = false :=
  (capture_still_read_exception_effect piState "boom" "T" true (by decide)
      (by decide)).2.1

/-- Claim C10: every frame the capture loop stores is in BGR channel order
(the Pi lores YUV420 frame through the conversion, the webcam frame as
read), and for the Pi path the MJPEG generator applies the extra RGB2BGR
conversion to the buffered BGR frame, so every streamed pixel has its red
and blue channels swapped relative to the buffered pixel. -/
theorem buffer_bgr_and_stream_swapped :
    (∀ (conv : Triple → Triple) (s : CamState) (e : IterEnv) (f : Frame),
      s.connected = true → s.camera.isSome = true →
      e.read = CapOutcome.ok f → e.convOk = true →
      (s.camera_type = "Raspberry Pi Camera" ∨
        (s.camera_type = "Webcam" ∧ f.fmt = PixFmt.bgr)) →
      (contStateFrame (loopIter conv s e)).map Frame.fmt = some PixFmt.bgr) ∧
    (∀ (s : CamState) (f : Frame),
      s.camera_type = "Raspberry Pi Camera" → s.frame = some f →
      generate_frames_step s true = some (cvtColorRGB2BGR f) ∧
      (cvtColorRGB2BGR f).data = f.data.map swapRB ∧
      ∀ t : Triple,
        asBGR (swapRB t) = { r := (asBGR t).b, g := (asBGR t).g, b := (asBGR t).r }) := by
  constructor
  · intro conv s e f hc hcam hread hconv hty
    obtain ⟨u, hu⟩ := Option.isSome_iff_exists.mp hcam
    have hguard : (!s.connected || s.camera.isNone) = false := by simp [hc, hu]
    rcases hty with hty | ⟨hty, hf⟩
    · simp [loopIter, capture_frame, hguard, hread, hconv, contStateFrame, hty,
        cvtColorYUV420ToBGR]
    · simp [loopIter, capture_frame, hguard, hread, hconv, contStateFrame, hty, hf,
        show (("Webcam" : String) == "Raspberry Pi Camera") = false from by decide,
        show (("Webcam" : String) == "Webcam") = true from by decide]
  · intro s f hty hframe
    refine ⟨?_, rfl, ?_⟩
    · simp [generate_frames_step, get_frame, hframe, hty]
    · intro t
      obtain ⟨a, b, c⟩ := t
      rfl

/-- Claim C10, witness: a concrete Pi loop iteration stores a BGR frame, and
the MJPEG generator hands the channel-swapped frame to the JPEG encoder. -/
theorem buffer_bgr_and_stream_swapped_witness :
    (contStateFrame (loopIter idConv piState envOk)).map Frame.fmt =
      some PixFmt.bgr ∧
    generate_frames_step piFrameState true = some (cvtColorRGB2BGR bgrFrame) := by
  constructor
  · exact buffer_bgr_and_stream_swapped.1 idConv piState envOk yuvFrame
      (by decide) (by decide) rfl rfl (Or.inl (by decide))
  · exact (buffer_bgr_and_stream_swapped.2 piFrameState bgrFrame (by decide)
      (by decide)).1

end ServoControl
